import Mathlib

/-!
Shallow embedding of the robot-arm scene component of this repository
(src/components/arm.tsx, with the control surface in src/components/slider.tsx
and the page in src/app/page.tsx), together with theorems settling the
specification claims about it.

The embedded parts are: the fixed dimension table, the degree→radian helper,
the color table, the joint-group hierarchy the scene-build effect creates,
the two update effects (joint rotations and material colors), the cleanup
function, the build effect's dependency array, and the real-valued forward
kinematics of the frame chain (three.js translate-then-rotate composition).
-/

namespace RobotArm

/-- The `JointAngles` interface: five named joint angles in degrees
(j0 yaw, j1..j4 pitch). The source uses floating-point numbers; angles are
embedded as exact rationals. -/
structure JointAngles where
  j0 : ℚ
  j1 : ℚ
  j2 : ℚ
  j3 : ℚ
  j4 : ℚ
deriving DecidableEq, Repr

/-- Cylinder dimensions from the `DIMENSIONS` table. -/
structure CylinderDims where
  diameter : ℚ
  height : ℚ
deriving DecidableEq, Repr

/-- Box dimensions from the `DIMENSIONS` table. -/
structure BoxDims where
  width : ℚ
  height : ℚ
  length : ℚ
deriving DecidableEq, Repr

/-- Joint-sphere radii from the `DIMENSIONS` table. -/
structure JointRadii where
  shoulder : ℚ
  elbow : ℚ
  wrist : ℚ
  pipette : ℚ
deriving DecidableEq, Repr

/-- Shape of the `DIMENSIONS` constant. -/
structure Dimensions where
  base : CylinderDims
  segment1 : BoxDims
  segment2 : BoxDims
  segment3 : BoxDims
  segment4 : CylinderDims
  joints : JointRadii
deriving DecidableEq, Repr

/-- Robot arm dimensions (in meters), the `DIMENSIONS` constant of arm.tsx. -/
def DIMENSIONS : Dimensions :=
  { base := ⟨0.5, 0.2⟩
  , segment1 := ⟨0.1, 0.1, 0.6⟩
  , segment2 := ⟨0.08, 0.08, 0.45⟩
  , segment3 := ⟨0.06, 0.06, 0.25⟩
  , segment4 := ⟨0.02, 0.1⟩
  , joints := ⟨0.06, 0.05, 0.04, 0.015⟩ }

/-- A radian value as stored in a three.js rotation slot. The source stores a
plain floating-point number of radians, and every radian value this program
ever stores is a rational multiple of π/180 (a degree value put through
`degToRad`, or the constant `Math.PI / 2`, i.e. 90°). Such a value is
represented exactly by its rational degree coefficient; the real number it
denotes is `deg * π / 180` (see `Radians.toReal`). -/
structure Radians where
  deg : ℚ
deriving DecidableEq, Repr

/-- The helper `degToRad = (degrees * Math.PI) / 180`. In the exact
representation `Radians`, the result of converting `degrees` is the value
whose coefficient is `degrees` itself. -/
def degToRad (degrees : ℚ) : Radians := ⟨degrees⟩

/-- The real number a stored `Radians` value denotes: `deg * π / 180`. -/
noncomputable def Radians.toReal (r : Radians) : ℝ := (r.deg : ℝ) * Real.pi / 180

/-- An Euler rotation (the `rotation` property of a three.js `Object3D`);
a fresh object has all three components zero. -/
structure Euler where
  x : Radians := ⟨0⟩
  y : Radians := ⟨0⟩
  z : Radians := ⟨0⟩
deriving DecidableEq, Repr

/-- A local position vector with exact rational coordinates (the `position`
property of a three.js `Object3D`); a fresh object sits at the origin. -/
structure Vec3 where
  x : ℚ := 0
  y : ℚ := 0
  z : ℚ := 0
deriving DecidableEq, Repr

/-- The pose state of a `THREE.Group` or `THREE.Mesh` relevant to the claims:
its local position and its Euler rotation. `new THREE.Group()` yields the
default (origin, zero rotation). -/
structure Obj3D where
  position : Vec3 := {}
  rotation : Euler := {}
deriving DecidableEq, Repr

/-- The helper `getColorHex`: map a color name to its hex value; the `switch`
falls through to a neutral gray for any unrecognized value. The TypeScript
parameter type is the union `RobotColor`, but at runtime the value is a
string, so the embedding takes a `String`. -/
def getColorHex (color : String) : ℕ :=
  if color = "red" then 0xff0000
  else if color = "blue" then 0x0066ff
  else if color = "green" then 0x00aa00
  else if color = "black" then 0x333333
  else if color = "white" then 0xffffff
  else 0x666666

/-- The five members of the `RobotColor` union type (color-selector options). -/
def robotColorNames : List String := ["red", "blue", "green", "black", "white"]

/-- The default value of the `color` prop of `RobotArmScene`
(`color = 'red'` in the destructuring of the props). -/
def defaultColorProp : String := "red"

/-- A `THREE.MeshStandardMaterial` as far as the claims observe it: its
current color (`material.color`, set via `setHex`) and whether `dispose()`
has been called on it. A freshly constructed material is not disposed. -/
structure Material where
  color : ℕ
  disposed : Bool := false
deriving DecidableEq, Repr

/-- `jointGroupsRef.current`: a record of optional handles to the five joint
groups, initially all absent (`useRef({})`). -/
structure JointGroupsRef where
  j0 : Option Obj3D := none
  j1 : Option Obj3D := none
  j2 : Option Obj3D := none
  j3 : Option Obj3D := none
  j4 : Option Obj3D := none
deriving DecidableEq, Repr

/-- `materialsRef.current`: a record of optional handles to the six
materials, initially all absent (`useRef({})`). -/
structure MaterialsRef where
  base : Option Material := none
  segment1 : Option Material := none
  segment2 : Option Material := none
  segment3 : Option Material := none
  pipette : Option Material := none
  joints : Option Material := none
deriving DecidableEq, Repr

/-- The default angles the scene-build effect uses when the `jointAngles`
prop is absent (`jointAngles || { j0: 0, j1: 65, j2: 60, j3: 45, j4: 90 }`). -/
def defaultSceneAngles : JointAngles := ⟨0, 65, 60, 45, 90⟩

/-- `currentAngles = jointAngles || defaults` in the scene-build effect. -/
def currentAngles (jointAngles : Option JointAngles) : JointAngles :=
  jointAngles.getD defaultSceneAngles

/-- The initial slider state of `RobotArmControl` in slider.tsx
(`useState({ j0: 0, j1: 75, j2: 45, j3: 15, j4: 10 })`). -/
def initialControlAngles : JointAngles := ⟨0, 75, 45, 15, 10⟩

/-- The `j0Group` built by the scene effect: positioned at the top of the
base (`position.y = DIMENSIONS.base.height`) and yawed about Y by the j0
angle (`rotation.y = degToRad(currentAngles.j0)`). -/
def j0Group (a : JointAngles) : Obj3D :=
  { position := { y := DIMENSIONS.base.height }
  , rotation := { y := degToRad a.j0 } }

/-- The `j1Group`: no position offset from `j0Group`; pitched about X by the
negated j1 angle (`rotation.x = degToRad(-currentAngles.j1)`). -/
def j1Group (a : JointAngles) : Obj3D :=
  { rotation := { x := degToRad (-a.j1) } }

/-- The `j2Group`: offset by `DIMENSIONS.segment1.length` along local +Z;
pitched about X by the negated j2 angle. -/
def j2Group (a : JointAngles) : Obj3D :=
  { position := { z := DIMENSIONS.segment1.length }
  , rotation := { x := degToRad (-a.j2) } }

/-- The `j3Group`: offset by `DIMENSIONS.segment2.length` along local +Z;
pitched about X by the negated j3 angle. -/
def j3Group (a : JointAngles) : Obj3D :=
  { position := { z := DIMENSIONS.segment2.length }
  , rotation := { x := degToRad (-a.j3) } }

/-- The `j4Group`: offset by `DIMENSIONS.segment3.length` along local +Z;
pitched about X by the negated j4 angle. -/
def j4Group (a : JointAngles) : Obj3D :=
  { position := { z := DIMENSIONS.segment3.length }
  , rotation := { x := degToRad (-a.j4) } }

/-- The `robotArm` root group: a fresh group with identity transform. -/
def robotArmGroup : Obj3D := {}

/-- The `segment4` pipette mesh: positioned half its height along local +Z
and rotated by `Math.PI / 2` (= 90°) about X to orient the cylinder's native
+Y axis along local +Z. -/
def segment4Mesh : Obj3D :=
  { position := { z := DIMENSIONS.segment4.height / 2 }
  , rotation := { x := ⟨90⟩ } }

/-- The state of `jointGroupsRef.current` right after the scene-build effect
has run with angle tuple `a`: all five handles present, holding the groups
built at lines 191–286 of arm.tsx. -/
def buildJointGroups (a : JointAngles) : JointGroupsRef :=
  { j0 := some (j0Group a)
  , j1 := some (j1Group a)
  , j2 := some (j2Group a)
  , j3 := some (j3Group a)
  , j4 := some (j4Group a) }

/-- The state of `materialsRef.current` right after the scene-build effect
has run with color `color`: six fresh materials, each constructed with
`getColorHex color`. -/
def buildMaterials (color : String) : MaterialsRef :=
  { base := some { color := getColorHex color }
  , segment1 := some { color := getColorHex color }
  , segment2 := some { color := getColorHex color }
  , segment3 := some { color := getColorHex color }
  , pipette := some { color := getColorHex color }
  , joints := some { color := getColorHex color } }

/-- The joint-angle update effect (lines 348–368 of arm.tsx): return
unchanged when the `jointAngles` prop is absent (`if (!jointAngles) return`);
otherwise, for each handle that is present, set its driven rotation component
(Y from j0 directly, X from the negated j1..j4); absent handles stay absent
and nothing else is touched. -/
def applyAngles (jointAngles : Option JointAngles) (r : JointGroupsRef) :
    JointGroupsRef :=
  match jointAngles with
  | none => r
  | some a =>
    { j0 := r.j0.map fun g => { g with rotation := { g.rotation with y := degToRad a.j0 } }
    , j1 := r.j1.map fun g => { g with rotation := { g.rotation with x := degToRad (-a.j1) } }
    , j2 := r.j2.map fun g => { g with rotation := { g.rotation with x := degToRad (-a.j2) } }
    , j3 := r.j3.map fun g => { g with rotation := { g.rotation with x := degToRad (-a.j3) } }
    , j4 := r.j4.map fun g => { g with rotation := { g.rotation with x := degToRad (-a.j4) } } }

/-- The color update effect (lines 371–394 of arm.tsx): return unchanged
when `color` is falsy — for a string value that means the empty string
(`if (!color) return`); otherwise `setHex(getColorHex color)` on each
material handle that is present. -/
def applyColor (color : String) (m : MaterialsRef) : MaterialsRef :=
  if color = "" then m
  else
    { base := m.base.map fun mat => { mat with color := getColorHex color }
    , segment1 := m.segment1.map fun mat => { mat with color := getColorHex color }
    , segment2 := m.segment2.map fun mat => { mat with color := getColorHex color }
    , segment3 := m.segment3.map fun mat => { mat with color := getColorHex color }
    , pipette := m.pipette.map fun mat => { mat with color := getColorHex color }
    , joints := m.joints.map fun mat => { mat with color := getColorHex color } }

/-- The mutable state of one scene instance the two update effects and the
cleanup function can reach: the two ref records. -/
structure SceneRefs where
  joints : JointGroupsRef
  mats : MaterialsRef
deriving DecidableEq, Repr

/-- The joint-angle update effect acting on the component state. -/
def applyAnglesS (jointAngles : Option JointAngles) (s : SceneRefs) : SceneRefs :=
  { s with joints := applyAngles jointAngles s.joints }

/-- The color update effect acting on the component state. -/
def applyColorS (color : String) (s : SceneRefs) : SceneRefs :=
  { s with mats := applyColor color s.mats }

/-- The cleanup function of the scene-build effect (lines 315–344 of
arm.tsx): it cancels the frame callback, detaches the canvas and calls
`dispose()` on the geometries, the six materials and the renderer. The six
materials it disposes are the very objects `materialsRef.current` points to
(the refs are set once at build and only mutated in place afterwards), so on
the ref state disposal marks each held material disposed. The function never
clears `jointGroupsRef.current` or `materialsRef.current`: both records keep
their handles. -/
def cleanup (s : SceneRefs) : SceneRefs :=
  { s with mats :=
    { base := s.mats.base.map fun m => { m with disposed := true }
    , segment1 := s.mats.segment1.map fun m => { m with disposed := true }
    , segment2 := s.mats.segment2.map fun m => { m with disposed := true }
    , segment3 := s.mats.segment3.map fun m => { m with disposed := true }
    , pipette := s.mats.pipette.map fun m => { m with disposed := true }
    , joints := s.mats.joints.map fun m => { m with disposed := true } } }

/-- The dependency array of the scene-build effect, line 345 of arm.tsx:
`[isClient, jointAngles, color]`. -/
structure BuildDeps where
  isClient : Bool
  jointAngles : Option JointAngles
  color : String
deriving DecidableEq, Repr

/-- The values the scene-build effect's dependency array captures on a
render. -/
def buildEffectDeps (isClient : Bool) (jointAngles : Option JointAngles)
    (color : String) : BuildDeps :=
  ⟨isClient, jointAngles, color⟩

/-- React re-runs an effect — running its cleanup (full teardown) and then
its body (full reconstruction) — exactly when its dependency array differs
from the previous render's. React compares entries by reference
(`Object.is`); value inequality, as used here, implies reference
inequality. -/
def rebuildTriggered (prev next : BuildDeps) : Bool := decide (prev ≠ next)

/-- A world-space vector with real coordinates, for evaluating the frame
chain. -/
structure Vec3R where
  x : ℝ
  y : ℝ
  z : ℝ

/-- Promote an exact local position to real coordinates. -/
noncomputable def Vec3.toR (v : Vec3) : Vec3R := ⟨(v.x : ℝ), (v.y : ℝ), (v.z : ℝ)⟩

/-- Rotation about the X axis by θ radians (the three.js
`Matrix4.makeRotationX` matrix applied to a vector). -/
noncomputable def rotX (θ : ℝ) (v : Vec3R) : Vec3R :=
  ⟨v.x, Real.cos θ * v.y - Real.sin θ * v.z, Real.sin θ * v.y + Real.cos θ * v.z⟩

/-- Rotation about the Y axis by θ radians. -/
noncomputable def rotY (θ : ℝ) (v : Vec3R) : Vec3R :=
  ⟨Real.cos θ * v.x + Real.sin θ * v.z, v.y, -(Real.sin θ) * v.x + Real.cos θ * v.z⟩

/-- Rotation about the Z axis by θ radians. -/
noncomputable def rotZ (θ : ℝ) (v : Vec3R) : Vec3R :=
  ⟨Real.cos θ * v.x - Real.sin θ * v.y, Real.sin θ * v.x + Real.cos θ * v.y, v.z⟩

/-- Apply an Euler rotation in three.js's default rotation order `XYZ`,
whose matrix is `Rx(x) · Ry(y) · Rz(z)`. -/
noncomputable def Euler.apply (e : Euler) (v : Vec3R) : Vec3R :=
  rotX e.x.toReal (rotY e.y.toReal (rotZ e.z.toReal v))

/-- Map a point in an object's local frame into its parent's frame: the
three.js local matrix is translate-then-rotate (`T · R`, unit scale). -/
noncomputable def Obj3D.applyPoint (o : Obj3D) (v : Vec3R) : Vec3R :=
  let w := o.rotation.apply v
  ⟨(o.position.x : ℝ) + w.x, (o.position.y : ℝ) + w.y, (o.position.z : ℝ) + w.z⟩

/-- Map a direction through an object's rotation only (translation does not
act on directions). -/
noncomputable def Obj3D.applyDir (o : Obj3D) (v : Vec3R) : Vec3R :=
  o.rotation.apply v

/-- The tip of the pipette in the `segment4` mesh's geometry frame: a
`CylinderGeometry` of height h is centered at the origin along its native +Y
axis, so its far end is at `(0, h/2, 0)`. -/
noncomputable def pipetteTipLocal : Vec3R :=
  ⟨0, (DIMENSIONS.segment4.height : ℝ) / 2, 0⟩

/-- The world position of the pipette tip for an angle tuple `a`: the chain
scene → robotArm → j0Group → j1Group → j2Group → j3Group → j4Group →
segment4 mesh applied to the cylinder's far end. -/
noncomputable def tipWorld (a : JointAngles) : Vec3R :=
  robotArmGroup.applyPoint <| (j0Group a).applyPoint <| (j1Group a).applyPoint <|
    (j2Group a).applyPoint <| (j3Group a).applyPoint <| (j4Group a).applyPoint <|
      segment4Mesh.applyPoint pipetteTipLocal

/-- The world direction of the arm's forward local +Z axis for an angle
tuple `a`: local +Z of the deepest joint frame mapped through all five joint
rotations (the root group is the identity). -/
noncomputable def armForwardDir (a : JointAngles) : Vec3R :=
  (j0Group a).applyDir <| (j1Group a).applyDir <| (j2Group a).applyDir <|
    (j3Group a).applyDir <| (j4Group a).applyDir ⟨0, 0, 1⟩

lemma Radians.toReal_zero : (Radians.mk 0).toReal = 0 := by
  simp [Radians.toReal]

lemma Radians.toReal_ninety : (Radians.mk 90).toReal = Real.pi / 2 := by
  simp only [Radians.toReal]
  push_cast
  ring

lemma Radians.toReal_neg_ninety : (Radians.mk (-90)).toReal = -(Real.pi / 2) := by
  simp only [Radians.toReal]
  push_cast
  ring

lemma rotX_zero (v : Vec3R) : rotX 0 v = v := by
  cases v
  simp [rotX]

lemma rotY_zero (v : Vec3R) : rotY 0 v = v := by
  cases v
  simp [rotY]

lemma rotZ_zero (v : Vec3R) : rotZ 0 v = v := by
  cases v
  simp [rotZ]

lemma rotX_pi_div_two (v : Vec3R) : rotX (Real.pi / 2) v = ⟨v.x, -v.z, v.y⟩ := by
  simp [rotX]

lemma rotX_neg_pi_div_two (v : Vec3R) : rotX (-(Real.pi / 2)) v = ⟨v.x, v.z, -v.y⟩ := by
  simp [rotX]

lemma rotY_pi_div_two (v : Vec3R) : rotY (Real.pi / 2) v = ⟨v.z, v.y, -v.x⟩ := by
  simp [rotY]

lemma tipWorld_zero_eq : tipWorld ⟨0, 0, 0, 0, 0⟩ = ⟨0, 1 / 5, 7 / 5⟩ := by
  simp only [tipWorld, robotArmGroup, j0Group, j1Group, j2Group, j3Group, j4Group,
    segment4Mesh, pipetteTipLocal, Obj3D.applyPoint, Euler.apply, degToRad, neg_zero,
    Radians.toReal_zero, Radians.toReal_ninety, rotX_zero, rotY_zero, rotZ_zero,
    rotX_pi_div_two, DIMENSIONS]
  simp only [Vec3R.mk.injEq]
  norm_num

lemma tipWorld_pitch_ninety_eq : tipWorld ⟨0, 90, 0, 0, 0⟩ = ⟨0, 8 / 5, 0⟩ := by
  simp only [tipWorld, robotArmGroup, j0Group, j1Group, j2Group, j3Group, j4Group,
    segment4Mesh, pipetteTipLocal, Obj3D.applyPoint, Euler.apply, degToRad, neg_zero,
    Radians.toReal_zero, Radians.toReal_ninety, Radians.toReal_neg_ninety,
    rotX_zero, rotY_zero, rotZ_zero, rotX_pi_div_two, rotX_neg_pi_div_two, DIMENSIONS]
  simp only [Vec3R.mk.injEq]
  norm_num

/-- Claim C3 (counterexample): at the all-zero angle tuple the pipette tip's
world position is not (0, 1.6, 0) — at zero pitch the chain extends
horizontally along world +Z, not vertically. -/
theorem c3_counterexample : tipWorld ⟨0, 0, 0, 0, 0⟩ ≠ ⟨0, 1.6, 0⟩ := by
  rw [tipWorld_zero_eq]
  intro h
  have hy := congrArg Vec3R.y h
  norm_num at hy

/-- Claim C3 (amended): at the all-zero tuple the straight chain is
horizontal: the tip sits at (0, base.height, seg1.length + seg2.length +
seg3.length + seg4.height) = (0, 0.2, 1.4). The vertically stacked position
(0, 1.6, 0) of the original claim is reached at the pose j1 = 90 (all other
angles zero), not at the all-zero pose. -/
theorem c3_tip_straight_pose :
    tipWorld ⟨0, 0, 0, 0, 0⟩ =
      ⟨0, (DIMENSIONS.base.height : ℝ),
        (DIMENSIONS.segment1.length : ℝ) + (DIMENSIONS.segment2.length : ℝ)
          + (DIMENSIONS.segment3.length : ℝ) + (DIMENSIONS.segment4.height : ℝ)⟩ ∧
    tipWorld ⟨0, 90, 0, 0, 0⟩ =
      ⟨0, (DIMENSIONS.base.height : ℝ) + (DIMENSIONS.segment1.length : ℝ)
          + (DIMENSIONS.segment2.length : ℝ) + (DIMENSIONS.segment3.length : ℝ)
          + (DIMENSIONS.segment4.height : ℝ), 0⟩ := by
  rw [tipWorld_zero_eq, tipWorld_pitch_ninety_eq]
  simp only [DIMENSIONS, Vec3R.mk.injEq]
  norm_num

/-- Claim C8: at the tuple (90, 0, 0, 0, 0) the arm's forward local +Z axis
is yawed 90° to point along world +X, and every joint frame's fixed
translation offset equals its offset in the all-zero pose. -/
theorem c8_yaw_ninety_forward :
    armForwardDir ⟨90, 0, 0, 0, 0⟩ = ⟨1, 0, 0⟩ ∧
    (j0Group ⟨90, 0, 0, 0, 0⟩).position = (j0Group ⟨0, 0, 0, 0, 0⟩).position ∧
    (j1Group ⟨90, 0, 0, 0, 0⟩).position = (j1Group ⟨0, 0, 0, 0, 0⟩).position ∧
    (j2Group ⟨90, 0, 0, 0, 0⟩).position = (j2Group ⟨0, 0, 0, 0, 0⟩).position ∧
    (j3Group ⟨90, 0, 0, 0, 0⟩).position = (j3Group ⟨0, 0, 0, 0, 0⟩).position ∧
    (j4Group ⟨90, 0, 0, 0, 0⟩).position = (j4Group ⟨0, 0, 0, 0, 0⟩).position := by
  refine ⟨?_, rfl, rfl, rfl, rfl, rfl⟩
  simp only [armForwardDir, j0Group, j1Group, j2Group, j3Group, j4Group,
    Obj3D.applyDir, Euler.apply, degToRad, neg_zero, Radians.toReal_zero,
    Radians.toReal_ninety, rotX_zero, rotY_zero, rotZ_zero, rotY_pi_div_two]

/-- Claim C1: after `applyAngles A` on present handles, the j0 handle's Y
rotation reads back as `A.j0` converted by `rad = deg·π/180` with sign
preserved, each jk handle's X rotation (k = 1..4) reads back as `−A.jk` so
converted, and no other rotation component or position of any joint handle
is changed. -/
theorem c1_applyAngles_readback (A : JointAngles) (r : JointGroupsRef)
    (g0 g1 g2 g3 g4 : Obj3D)
    (h0 : r.j0 = some g0) (h1 : r.j1 = some g1) (h2 : r.j2 = some g2)
    (h3 : r.j3 = some g3) (h4 : r.j4 = some g4) :
    applyAngles (some A) r =
      { j0 := some { g0 with rotation := { g0.rotation with y := degToRad A.j0 } }
      , j1 := some { g1 with rotation := { g1.rotation with x := degToRad (-A.j1) } }
      , j2 := some { g2 with rotation := { g2.rotation with x := degToRad (-A.j2) } }
      , j3 := some { g3 with rotation := { g3.rotation with x := degToRad (-A.j3) } }
      , j4 := some { g4 with rotation := { g4.rotation with x := degToRad (-A.j4) } } } ∧
    (degToRad A.j0).toReal = (A.j0 : ℝ) * Real.pi / 180 ∧
    (degToRad (-A.j1)).toReal = -((A.j1 : ℝ) * Real.pi / 180) ∧
    (degToRad (-A.j2)).toReal = -((A.j2 : ℝ) * Real.pi / 180) ∧
    (degToRad (-A.j3)).toReal = -((A.j3 : ℝ) * Real.pi / 180) ∧
    (degToRad (-A.j4)).toReal = -((A.j4 : ℝ) * Real.pi / 180) := by
  refine ⟨?_, ?_, ?_, ?_, ?_, ?_⟩
  · simp [applyAngles, h0, h1, h2, h3, h4]
  · simp [Radians.toReal, degToRad]
  all_goals simp only [Radians.toReal, degToRad]
  all_goals push_cast
  all_goals ring

/-- Witness for C1 at the angle tuple (10, 20, 30, 40, 50) on the handles of
a freshly built all-zero scene. -/
theorem c1_applyAngles_readback_witness :
    applyAngles (some ⟨10, 20, 30, 40, 50⟩) (buildJointGroups ⟨0, 0, 0, 0, 0⟩) =
      { j0 := some { position := { y := 0.2 }, rotation := { y := ⟨10⟩ } }
      , j1 := some { rotation := { x := ⟨-20⟩ } }
      , j2 := some { position := { z := 0.6 }, rotation := { x := ⟨-30⟩ } }
      , j3 := some { position := { z := 0.45 }, rotation := { x := ⟨-40⟩ } }
      , j4 := some { position := { z := 0.25 }, rotation := { x := ⟨-50⟩ } } } ∧
    (degToRad (10 : ℚ)).toReal = ((10 : ℚ) : ℝ) * Real.pi / 180 ∧
    (degToRad (-(20 : ℚ))).toReal = -(((20 : ℚ) : ℝ) * Real.pi / 180) ∧
    (degToRad (-(30 : ℚ))).toReal = -(((30 : ℚ) : ℝ) * Real.pi / 180) ∧
    (degToRad (-(40 : ℚ))).toReal = -(((40 : ℚ) : ℝ) * Real.pi / 180) ∧
    (degToRad (-(50 : ℚ))).toReal = -(((50 : ℚ) : ℝ) * Real.pi / 180) := by
  exact c1_applyAngles_readback ⟨10, 20, 30, 40, 50⟩ (buildJointGroups ⟨0, 0, 0, 0, 0⟩)
    (j0Group ⟨0, 0, 0, 0, 0⟩) (j1Group ⟨0, 0, 0, 0, 0⟩) (j2Group ⟨0, 0, 0, 0, 0⟩)
    (j3Group ⟨0, 0, 0, 0, 0⟩) (j4Group ⟨0, 0, 0, 0, 0⟩) rfl rfl rfl rfl rfl

/-- Claim C2 (evaluation at the failing input): a change of the pose alone,
or of the color alone, re-triggers the scene-build effect — a full teardown
and reconstruction — because `jointAngles` and `color` are entries of the
build effect's dependency array `[isClient, jointAngles, color]`. This
contradicts the claim that pose and color changes never trigger a rebuild. -/
theorem c2_rebuild_on_pose_or_color_change :
    rebuildTriggered
      (buildEffectDeps true (some ⟨0, 75, 45, 15, 10⟩) "red")
      (buildEffectDeps true (some ⟨0, 76, 45, 15, 10⟩) "red") = true ∧
    rebuildTriggered
      (buildEffectDeps true (some ⟨0, 75, 45, 15, 10⟩) "red")
      (buildEffectDeps true (some ⟨0, 75, 45, 15, 10⟩) "blue") = true := by
  decide

/-- Claim C4 (counterexample): the empty string is outside the five named
colors, yet `applyColor ""` does not set the materials to the fallback gray —
the update effect's falsy guard (`if (!color) return`) makes it leave the
materials untouched. -/
theorem c4_counterexample :
    "" ∉ robotColorNames ∧
    (applyColor "" (buildMaterials "red")).base.map Material.color ≠ some 0x666666 ∧
    applyColor "" (buildMaterials "red") = buildMaterials "red" := by
  decide

/-- Claim C4 (amended): the five named colors map to their fixed RGB
constants; any non-empty value outside the five resolves to the fallback
gray; for any non-empty color, `applyColor` sets all six present material
handles to the identical resolved value (and, being a total function, never
fails). The empty string is falsy, so the update effect leaves the
materials unchanged instead of setting gray. -/
theorem c4_color_update (c : String) (m : MaterialsRef)
    (b s1 s2 s3 p j : Material)
    (hb : m.base = some b) (hs1 : m.segment1 = some s1) (hs2 : m.segment2 = some s2)
    (hs3 : m.segment3 = some s3) (hp : m.pipette = some p) (hj : m.joints = some j)
    (hc : c ≠ "") :
    getColorHex "red" = 0xff0000 ∧ getColorHex "blue" = 0x0066ff ∧
    getColorHex "green" = 0x00aa00 ∧ getColorHex "black" = 0x333333 ∧
    getColorHex "white" = 0xffffff ∧
    (c ∉ robotColorNames → getColorHex c = 0x666666) ∧
    applyColor c m =
      { base := some { b with color := getColorHex c }
      , segment1 := some { s1 with color := getColorHex c }
      , segment2 := some { s2 with color := getColorHex c }
      , segment3 := some { s3 with color := getColorHex c }
      , pipette := some { p with color := getColorHex c }
      , joints := some { j with color := getColorHex c } } ∧
    applyColor "" m = m := by
  refine ⟨by decide, by decide, by decide, by decide, by decide, ?_, ?_, by simp [applyColor]⟩
  · intro hmem
    simp only [robotColorNames, List.mem_cons, List.not_mem_nil, or_false] at hmem
    push_neg at hmem
    obtain ⟨hr, hbl, hg, hbk, hw⟩ := hmem
    simp [getColorHex, hr, hbl, hg, hbk, hw]
  · simp [applyColor, hc, hb, hs1, hs2, hs3, hp, hj]

/-- Witness for C4 at the unrecognized non-empty color "purple" on the
materials of a freshly built red scene. -/
theorem c4_color_update_witness :
    getColorHex "purple" = 0x666666 ∧
    applyColor "purple" (buildMaterials "red") =
      { base := some { color := 0x666666 }, segment1 := some { color := 0x666666 }
      , segment2 := some { color := 0x666666 }, segment3 := some { color := 0x666666 }
      , pipette := some { color := 0x666666 }, joints := some { color := 0x666666 } } := by
  have h := c4_color_update "purple" (buildMaterials "red")
    { color := 0xff0000 } { color := 0xff0000 } { color := 0xff0000 }
    { color := 0xff0000 } { color := 0xff0000 } { color := 0xff0000 }
    rfl rfl rfl rfl rfl rfl (by decide)
  refine ⟨h.2.2.2.2.2.1 (by decide), ?_⟩
  rw [h.2.2.2.2.2.2.1]
  decide

/-- Claim C5: `applyAngles A` is idempotent on the component state, and
`applyAngles` and `applyColor` commute with each other. -/
theorem c5_idempotent_commute (A : JointAngles) (c : String) (s : SceneRefs) :
    applyAnglesS (some A) (applyAnglesS (some A) s) = applyAnglesS (some A) s ∧
    applyColorS c (applyAnglesS (some A) s) = applyAnglesS (some A) (applyColorS c s) := by
  constructor
  · obtain ⟨⟨o0, o1, o2, o3, o4⟩, m⟩ := s
    simp only [applyAnglesS, applyAngles]
    cases o0 <;> cases o1 <;> cases o2 <;> cases o3 <;> cases o4 <;> rfl
  · rfl

/-- Claim C6: the built frame hierarchy has the fixed translation offsets
j0 at y = base.height = 0.2, j1 at zero offset, j2 at seg1.length = 0.6,
j3 at seg2.length = 0.45 and j4 at seg3.length = 0.25 along local +Z, for
every angle tuple; and neither an angle update nor a color update changes
the position of any joint handle. -/
theorem c6_fixed_offsets (a : JointAngles) (oa : Option JointAngles)
    (c : String) (s : SceneRefs) :
    (j0Group a).position = { y := DIMENSIONS.base.height } ∧
    DIMENSIONS.base.height = 0.2 ∧
    (j1Group a).position = { } ∧
    (j2Group a).position = { z := DIMENSIONS.segment1.length } ∧
    DIMENSIONS.segment1.length = 0.6 ∧
    (j3Group a).position = { z := DIMENSIONS.segment2.length } ∧
    DIMENSIONS.segment2.length = 0.45 ∧
    (j4Group a).position = { z := DIMENSIONS.segment3.length } ∧
    DIMENSIONS.segment3.length = 0.25 ∧
    (applyAnglesS oa s).joints.j0.map Obj3D.position = s.joints.j0.map Obj3D.position ∧
    (applyAnglesS oa s).joints.j1.map Obj3D.position = s.joints.j1.map Obj3D.position ∧
    (applyAnglesS oa s).joints.j2.map Obj3D.position = s.joints.j2.map Obj3D.position ∧
    (applyAnglesS oa s).joints.j3.map Obj3D.position = s.joints.j3.map Obj3D.position ∧
    (applyAnglesS oa s).joints.j4.map Obj3D.position = s.joints.j4.map Obj3D.position ∧
    (applyColorS c s).joints = s.joints := by
  refine ⟨rfl, rfl, rfl, rfl, rfl, rfl, rfl, rfl, rfl, ?_, ?_, ?_, ?_, ?_, rfl⟩
  · cases oa with
    | none => rfl
    | some b => cases hj : s.joints.j0 <;> simp [applyAnglesS, applyAngles, hj]
  · cases oa with
    | none => rfl
    | some b => cases hj : s.joints.j1 <;> simp [applyAnglesS, applyAngles, hj]
  · cases oa with
    | none => rfl
    | some b => cases hj : s.joints.j2 <;> simp [applyAnglesS, applyAngles, hj]
  · cases oa with
    | none => rfl
    | some b => cases hj : s.joints.j3 <;> simp [applyAnglesS, applyAngles, hj]
  · cases oa with
    | none => rfl
    | some b => cases hj : s.joints.j4 <;> simp [applyAnglesS, applyAngles, hj]

/-- Claim C7: when no angle tuple is supplied, the scene builds with the
default pose (0, 65, 60, 45, 90), while the control surface initializes to
the distinct pose (0, 75, 45, 15, 10). -/
theorem c7_default_poses :
    currentAngles none = ⟨0, 65, 60, 45, 90⟩ ∧
    initialControlAngles = ⟨0, 75, 45, 15, 10⟩ ∧
    currentAngles none ≠ initialControlAngles := by
  decide

/-- Claim C9 (counterexample): build a red scene, tear it down. The material
refs still hold the (now disposed) materials and the joint-group refs still
hold the torn-down scene's groups — stale handles — and a subsequent
`applyColor "blue"` writes the color of a disposed material rather than
being a no-op or failing. -/
theorem c9_counterexample :
    (cleanup ⟨buildJointGroups defaultSceneAngles, buildMaterials "red"⟩).mats.base
      = some { color := 0xff0000, disposed := true } ∧
    (cleanup ⟨buildJointGroups defaultSceneAngles, buildMaterials "red"⟩).joints
      = buildJointGroups defaultSceneAngles ∧
    (applyColorS "blue"
        (cleanup ⟨buildJointGroups defaultSceneAngles, buildMaterials "red"⟩)).mats.base
      = some { color := 0x0066ff, disposed := true } := by
  refine ⟨rfl, rfl, rfl⟩

/-- Claim C9 (amended): teardown leaves both ref records populated — the
joint-group handles unchanged and each held material merely marked
disposed — and later `applyAngles`/`applyColor` calls are total in-place
mutations that never crash: they preserve every handle's presence, the
groups' positions, and the materials' disposed flags (so `applyColor` does
write to disposed materials). -/
theorem c9_post_teardown (s : SceneRefs) (oa : Option JointAngles) (c : String) :
    (cleanup s).joints = s.joints ∧
    (cleanup s).mats.base = s.mats.base.map (fun m => { m with disposed := true }) ∧
    (cleanup s).mats.joints = s.mats.joints.map (fun m => { m with disposed := true }) ∧
    (cleanup s).mats.base.isSome = s.mats.base.isSome ∧
    (applyColor c (cleanup s).mats).base.map Material.disposed
      = (cleanup s).mats.base.map Material.disposed ∧
    (applyAngles oa (cleanup s).joints).j0.map Obj3D.position
      = s.joints.j0.map Obj3D.position := by
  refine ⟨rfl, rfl, rfl, by cases hb : s.mats.base <;> simp [cleanup, hb], ?_, ?_⟩
  · by_cases hc : c = ""
    · simp [applyColor, hc]
    · cases hb : (cleanup s).mats.base <;> simp [applyColor, hc, hb]
  · cases oa with
    | none => rfl
    | some a' => cases hj : s.joints.j0 <;> simp [cleanup, applyAngles, hj]

/-- Claim C10: with the default `color` prop value 'red', the scene builds
all six materials initialized to the red constant 0xff0000. -/
theorem c10_default_color_red :
    defaultColorProp = "red" ∧
    getColorHex defaultColorProp = 0xff0000 ∧
    buildMaterials defaultColorProp =
      { base := some { color := 0xff0000 }, segment1 := some { color := 0xff0000 }
      , segment2 := some { color := 0xff0000 }, segment3 := some { color := 0xff0000 }
      , pipette := some { color := 0xff0000 }, joints := some { color := 0xff0000 } } := by
  decide

end RobotArm
